import Mathlib

/-!
Shallow embedding of the ChipletPart cost model (`design.py`) and proofs about
the claims of its specification.  Python floats are modelled by real numbers,
Python `**` with a real exponent by `Real.rpow`, `math.sqrt` by `Real.sqrt`,
`math.floor` / `math.ceil` by `Int.floor` / `Int.ceil`, and fatal paths
(`sys.exit(1)`, unbound-attribute errors) by `Except.error` / `Option.none`.
Setters return the record together with the integer status code of the source
(`1` = rejected mutation of a static record, `0` = success).
-/

namespace ChipletPart

noncomputable section

/-! ## WaferProcess (design.py, class WaferProcess) -/

structure WaferProcess where
  name : String
  wafer_diameter : ℝ
  edge_exclusion : ℝ
  wafer_process_yield : ℝ
  dicing_distance : ℝ
  reticle_x : ℝ
  reticle_y : ℝ
  wafer_fill_grid : Bool
  nre_front_end_cost_per_mm2_memory : ℝ
  nre_back_end_cost_per_mm2_memory : ℝ
  nre_front_end_cost_per_mm2_logic : ℝ
  nre_back_end_cost_per_mm2_logic : ℝ
  nre_front_end_cost_per_mm2_analog : ℝ
  nre_back_end_cost_per_mm2_analog : ℝ
  static : Bool

def WaferProcess.set_name (w : WaferProcess) (value : String) : WaferProcess × ℕ :=
  if w.static then (w, 1) else ({ w with name := value }, 0)

def WaferProcess.set_wafer_diameter (w : WaferProcess) (value : ℝ) : WaferProcess × ℕ :=
  if w.static then (w, 1) else ({ w with wafer_diameter := value }, 0)

def WaferProcess.set_edge_exclusion (w : WaferProcess) (value : ℝ) : WaferProcess × ℕ :=
  if w.static then (w, 1) else ({ w with edge_exclusion := value }, 0)

def WaferProcess.set_wafer_process_yield (w : WaferProcess) (value : ℝ) : WaferProcess × ℕ :=
  if w.static then (w, 1)
  else if value < 0 ∨ value > 1 then (w, 1)
  else ({ w with wafer_process_yield := value }, 0)

def WaferProcess.set_dicing_distance (w : WaferProcess) (value : ℝ) : WaferProcess × ℕ :=
  if w.static then (w, 1) else ({ w with dicing_distance := value }, 0)

def WaferProcess.set_reticle_x (w : WaferProcess) (value : ℝ) : WaferProcess × ℕ :=
  if w.static then (w, 1) else ({ w with reticle_x := value }, 0)

def WaferProcess.set_reticle_y (w : WaferProcess) (value : ℝ) : WaferProcess × ℕ :=
  if w.static then (w, 1) else ({ w with reticle_y := value }, 0)

def WaferProcess.set_wafer_fill_grid (w : WaferProcess) (value : String) : WaferProcess × ℕ :=
  if w.static then (w, 1)
  else ({ w with wafer_fill_grid := value == "True" || value == "true" }, 0)

def WaferProcess.set_nre_front_end_cost_per_mm2_memory (w : WaferProcess) (value : ℝ) :
    WaferProcess × ℕ :=
  if w.static then (w, 1) else ({ w with nre_front_end_cost_per_mm2_memory := value }, 0)

def WaferProcess.set_nre_back_end_cost_per_mm2_memory (w : WaferProcess) (value : ℝ) :
    WaferProcess × ℕ :=
  if w.static then (w, 1) else ({ w with nre_back_end_cost_per_mm2_memory := value }, 0)

def WaferProcess.set_nre_front_end_cost_per_mm2_logic (w : WaferProcess) (value : ℝ) :
    WaferProcess × ℕ :=
  if w.static then (w, 1) else ({ w with nre_front_end_cost_per_mm2_logic := value }, 0)

def WaferProcess.set_nre_back_end_cost_per_mm2_logic (w : WaferProcess) (value : ℝ) :
    WaferProcess × ℕ :=
  if w.static then (w, 1) else ({ w with nre_back_end_cost_per_mm2_logic := value }, 0)

def WaferProcess.set_nre_front_end_cost_per_mm2_analog (w : WaferProcess) (value : ℝ) :
    WaferProcess × ℕ :=
  if w.static then (w, 1) else ({ w with nre_front_end_cost_per_mm2_analog := value }, 0)

def WaferProcess.set_nre_back_end_cost_per_mm2_analog (w : WaferProcess) (value : ℝ) :
    WaferProcess × ℕ :=
  if w.static then (w, 1) else ({ w with nre_back_end_cost_per_mm2_analog := value }, 0)

/-! ## IO (design.py, class IO).  Named `Io` here because `IO` is taken by Lean.

The `bidirectional` attribute is dynamically typed in the source: the
constructor stores the raw constructor argument (a string as read from the
XML file), while `set_bidirectional` stores a parsed boolean.  It is modelled
as a sum of the two possible runtime types. -/

structure Io where
  type : String
  rx_area : ℝ
  tx_area : ℝ
  shoreline : ℝ
  bandwidth : ℝ
  wire_count : ℝ
  bidirectional : Sum String Bool
  energy_per_bit : ℝ
  reach : ℝ
  static : Bool

/-- Python truthiness of the dynamically typed `bidirectional` attribute:
a string is truthy iff non-empty, a boolean is itself. -/
def pyTruthy : Sum String Bool → Bool
  | Sum.inl s => s != ""
  | Sum.inr b => b

/-- IO.__init__ (design.py lines 336-355).  Lines 343-346 compute a boolean
from the `bidirectional` string, and line 347 immediately overwrites it with
the raw constructor argument, so the stored value is the raw argument. -/
def Io.init (type : String) (rx_area tx_area shoreline bandwidth wire_count : ℝ)
    (bidirectional : String) (energy_per_bit reach : ℝ) (static : Bool) : Io :=
  let _parsed : Bool := bidirectional == "True" || bidirectional == "true"
  { type := type, rx_area := rx_area, tx_area := tx_area, shoreline := shoreline,
    bandwidth := bandwidth, wire_count := wire_count,
    bidirectional := Sum.inl bidirectional,
    energy_per_bit := energy_per_bit, reach := reach, static := static }

def Io.set_type (x : Io) (value : String) : Io × ℕ :=
  if x.static then (x, 1) else ({ x with type := value }, 0)

def Io.set_rx_area (x : Io) (value : ℝ) : Io × ℕ :=
  if x.static then (x, 1) else ({ x with rx_area := value }, 0)

def Io.set_tx_area (x : Io) (value : ℝ) : Io × ℕ :=
  if x.static then (x, 1) else ({ x with tx_area := value }, 0)

def Io.set_shoreline (x : Io) (value : ℝ) : Io × ℕ :=
  if x.static then (x, 1) else ({ x with shoreline := value }, 0)

def Io.set_bandwidth (x : Io) (value : ℝ) : Io × ℕ :=
  if x.static then (x, 1) else ({ x with bandwidth := value }, 0)

def Io.set_wire_count (x : Io) (value : ℝ) : Io × ℕ :=
  if x.static then (x, 1) else ({ x with wire_count := value }, 0)

def Io.set_bidirectional (x : Io) (value : String) : Io × ℕ :=
  if x.static then (x, 1)
  else ({ x with bidirectional := Sum.inr (value == "True" || value == "true") }, 0)

def Io.set_energy_per_bit (x : Io) (value : ℝ) : Io × ℕ :=
  if x.static then (x, 1) else ({ x with energy_per_bit := value }, 0)

def Io.set_reach (x : Io) (value : ℝ) : Io × ℕ :=
  if x.static then (x, 1) else ({ x with reach := value }, 0)

/-! ## Layer (design.py, class Layer) -/

structure Layer where
  name : String
  active : Bool
  cost_per_mm2 : ℝ
  defect_density : ℝ
  critical_area_ratio : ℝ
  clustering_factor : ℝ
  litho_percent : ℝ
  mask_cost : ℝ
  stitching_yield : ℝ
  static : Bool

def Layer.set_name (L : Layer) (value : String) : Layer × ℕ :=
  if L.static then (L, 1) else ({ L with name := value }, 0)

def Layer.set_active (L : Layer) (value : Bool) : Layer × ℕ :=
  if L.static then (L, 1) else ({ L with active := value }, 0)

def Layer.set_cost_per_mm2 (L : Layer) (value : ℝ) : Layer × ℕ :=
  if L.static then (L, 1) else ({ L with cost_per_mm2 := value }, 0)

def Layer.set_defect_density (L : Layer) (value : ℝ) : Layer × ℕ :=
  if L.static then (L, 1) else ({ L with defect_density := value }, 0)

def Layer.set_critical_area_ratio (L : Layer) (value : ℝ) : Layer × ℕ :=
  if L.static then (L, 1) else ({ L with critical_area_ratio := value }, 0)

def Layer.set_clustering_factor (L : Layer) (value : ℝ) : Layer × ℕ :=
  if L.static then (L, 1) else ({ L with clustering_factor := value }, 0)

def Layer.set_litho_percent (L : Layer) (value : ℝ) : Layer × ℕ :=
  if L.static then (L, 1) else ({ L with litho_percent := value }, 0)

def Layer.set_mask_cost (L : Layer) (value : ℝ) : Layer × ℕ :=
  if L.static then (L, 1) else ({ L with mask_cost := value }, 0)

def Layer.set_stitching_yield (L : Layer) (value : ℝ) : Layer × ℕ :=
  if L.static then (L, 1) else ({ L with stitching_yield := value }, 0)

/-- Layer.layer_yield (design.py lines 691-696): a negative-binomial defect
yield times `stitching_yield ** num_stitches` with `num_stitches` hard-coded
to `0`.  The exponent `-1 * clustering_factor` is a real power (`Real.rpow`). -/
def Layer.layer_yield (L : Layer) (area : ℝ) : ℝ :=
  let num_stitches : ℕ := 0
  let defect_yield :=
    (1 + (L.defect_density * area * L.critical_area_ratio) / L.clustering_factor) ^
      ((-1 : ℝ) * L.clustering_factor)
  let stitching_yield := L.stitching_yield ^ num_stitches
  stitching_yield * defect_yield

/-- Fuel-driven rendering of the `while reticle_area < area` loop of
Layer.reticle_utilization (design.py lines 702-703); each iteration adds one
more reticle worth of area. -/
def reticleGrow (step area : ℝ) : ℕ → ℝ → ℝ
  | 0, reticle_area => reticle_area
  | Nat.succ fuel, reticle_area =>
    if reticle_area < area then reticleGrow step area fuel (reticle_area + step)
    else reticle_area

/-- Layer.reticle_utilization (design.py lines 698-707).  `//` on Python
floats is `Int.floor` of the quotient. -/
def Layer.reticle_utilization (_L : Layer) (area reticle_x reticle_y : ℝ) : ℝ :=
  let step := reticle_x * reticle_y
  let fuel := (⌈area / step⌉).toNat + 1
  let reticle_area := reticleGrow step area fuel step
  let number_chips_in_reticle : ℤ := ⌊reticle_area / area⌋
  let unutilized_reticle := reticle_area - (number_chips_in_reticle : ℝ) * area
  (reticle_area - unutilized_reticle) / reticle_area

/-- One fuel step per iteration of the case-1 `while row_chord_height < ...`
loop of Layer.compute_cost_per_mm2 (design.py lines 771-793).
`starting_distance_from_left` is rebound to `None` at the top of every
iteration (line 775), so the grid-fill arm always takes its `is None` branch
and both arms add the same `2 * floor(chord_length / square_side)`. -/
def case1Loop (usable square_side : ℝ) (grid_fill : Bool) : ℕ → ℝ → ℤ → ℤ
  | 0, _, acc => acc
  | Nat.succ fuel, row_chord_height, acc =>
    if row_chord_height < usable / 2 then
      let chord_length := Real.sqrt ((usable / 2) ^ 2 - row_chord_height ^ 2) * 2
      let add : ℤ :=
        if grid_fill then 2 * ⌊chord_length / square_side⌋
        else 2 * ⌊chord_length / square_side⌋
      case1Loop usable square_side grid_fill fuel (row_chord_height + square_side) (acc + add)
    else acc

/-- One fuel step per iteration of the case-2 loop of
Layer.compute_cost_per_mm2 (design.py lines 804-820); in grid-fill mode the
first iteration records `starting_distance_from_left` and later iterations
use the grid-aligned effective chord length. -/
def case2Loop (usable square_side : ℝ) (grid_fill : Bool) :
    ℕ → ℝ → Option ℝ → ℤ → ℤ
  | 0, _, _, acc => acc
  | Nat.succ fuel, row_chord_height, starting_distance_from_left, acc =>
    if row_chord_height < usable / 2 then
      let chord_length := Real.sqrt ((usable / 2) ^ 2 - row_chord_height ^ 2) * 2
      if grid_fill = false then
        case2Loop usable square_side grid_fill fuel (row_chord_height + square_side)
          starting_distance_from_left (acc + 2 * ⌊chord_length / square_side⌋)
      else
        match starting_distance_from_left with
        | none =>
          case2Loop usable square_side grid_fill fuel (row_chord_height + square_side)
            (some ((usable - chord_length) / 2)) (acc + 2 * ⌊chord_length / square_side⌋)
        | some d =>
          let location_of_first_fit_candidate := (usable - chord_length) / 2
          let starting_location :=
            ((⌈(location_of_first_fit_candidate - d) / square_side⌉ : ℤ) : ℝ) * square_side + d
          let effective_cord_length :=
            chord_length - (starting_location - location_of_first_fit_candidate)
          case2Loop usable square_side grid_fill fuel (row_chord_height + square_side)
            (some d) (acc + 2 * ⌊effective_cord_length / square_side⌋)
    else acc

/-- Upper bound on the number of iterations of a
`while h < usable/2: ...; h += square_side` loop started at `start`. -/
def loopFuel (usable square_side start : ℝ) : ℕ :=
  (⌈(usable / 2 - start) / square_side⌉).toNat + 1

/-- Layer.compute_cost_per_mm2 (design.py lines 741-837).  Returns
`Except.error ()` on the two `sys.exit(1)` paths (zero square area, zero
square count) and `Except.ok 1e9` on the sentinel path where the square's
diagonal does not fit the usable radius. -/
def Layer.compute_cost_per_mm2 (L : Layer) (square_area : ℝ)
    (wafer_process : WaferProcess) : Except Unit ℝ :=
  let wafer_diameter := wafer_process.wafer_diameter
  let grid_fill := wafer_process.wafer_fill_grid
  let usable_wafer_diameter := wafer_diameter - 2 * wafer_process.edge_exclusion
  let square_side := Real.sqrt square_area + wafer_process.dicing_distance
  if square_side * Real.sqrt 2 > usable_wafer_diameter / 2 then Except.ok 1e9
  else
    let chord_length_1 :=
      Real.sqrt ((usable_wafer_diameter / 2) ^ 2 - (square_side / 2) ^ 2) * 2
    let num_squares_case_1 :=
      case1Loop usable_wafer_diameter square_side grid_fill
        (loopFuel usable_wafer_diameter square_side (square_side / 2 + square_side))
        (square_side / 2 + square_side) ⌊chord_length_1 / square_side⌋
    let chord_length_2 :=
      Real.sqrt ((usable_wafer_diameter / 2) ^ 2 - square_side ^ 2) * 2
    let num_squares_case_2 :=
      case2Loop usable_wafer_diameter square_side grid_fill
        (loopFuel usable_wafer_diameter square_side (square_side + square_side))
        (square_side + square_side) none (2 * ⌊chord_length_2 / square_side⌋)
    let num_squares := max num_squares_case_1 num_squares_case_2
    if square_area = 0 then Except.error ()
    else if num_squares = 0 then Except.error ()
    else
      let used_area := (num_squares : ℝ) * square_area
      let circle_area := Real.pi * (wafer_diameter / 2) ^ 2
      Except.ok (L.cost_per_mm2 * circle_area / used_area)

/-- Layer.layer_cost (design.py lines 710-739): zero area costs zero; a
positive area is costed through `compute_cost_per_mm2` and the litho-affected
fraction is rescaled by the reticle utilization (taken as `1.0` when
`litho_percent` is zero); negative area, and a negative `litho_percent`
reached with positive area, hit `sys.exit(1)` (`Except.error ()`). -/
def Layer.layer_cost (L : Layer) (area : ℝ) (wafer_process : WaferProcess) :
    Except Unit ℝ :=
  if area = 0 then Except.ok 0
  else if area > 0 then
    match L.compute_cost_per_mm2 area wafer_process with
    | Except.error e => Except.error e
    | Except.ok cpm =>
      let layer_cost := area * cpm
      let reticle_utilization : Except Unit ℝ :=
        if L.litho_percent = 0 then Except.ok 1.0
        else if L.litho_percent > 0 then
          Except.ok (L.reticle_utilization area wafer_process.reticle_x wafer_process.reticle_y)
        else Except.error ()
      match reticle_utilization with
      | Except.error e => Except.error e
      | Except.ok ru =>
        Except.ok (layer_cost * (1 - L.litho_percent) + layer_cost * L.litho_percent / ru)
  else Except.error ()

/-! ## Assembly (design.py, class Assembly) -/

structure Assembly where
  name : String
  materials_cost_per_mm2 : ℝ
  picknplace_machine_cost : ℝ
  picknplace_machine_lifetime : ℝ
  picknplace_machine_uptime : ℝ
  picknplace_technician_yearly_cost : ℝ
  picknplace_time : ℝ
  picknplace_group : ℝ
  bonding_machine_cost : ℝ
  bonding_machine_lifetime : ℝ
  bonding_machine_uptime : ℝ
  bonding_machine_technician_yearly_cost : ℝ
  bonding_time : ℝ
  bonding_group : ℝ
  die_separation : ℝ
  edge_exclusion : ℝ
  max_pad_current_density : ℝ
  bonding_pitch : ℝ
  picknplace_cost_per_second : Option ℝ
  bonding_cost_per_second : Option ℝ
  bonding_yield : ℝ
  alignment_yield : ℝ
  dielectric_bond_defect_density : ℝ
  static : Bool

/-- Assembly.__init__ (design.py lines 943-988).  The completeness check at
line 979 starts with `self.name == "" or self.machine_cost_list == [] or ...`
and `machine_cost_list` is never assigned anywhere (its assignment at lines
952-955 is commented out), so unless the check short-circuits at
`name == ""` the attribute read raises AttributeError (`Except.error ()`).
Both the reachable incomplete branch (line 981) and the unreachable complete
branch (line 986) assign `static = False`, so a successful construction
always ends non-static, whatever the `static` argument was. -/
def Assembly.init (name : String)
    (materials_cost_per_mm2 picknplace_machine_cost picknplace_machine_lifetime
      picknplace_machine_uptime picknplace_technician_yearly_cost picknplace_time
      picknplace_group bonding_machine_cost bonding_machine_lifetime
      bonding_machine_uptime bonding_machine_technician_yearly_cost bonding_time
      bonding_group die_separation edge_exclusion max_pad_current_density
      bonding_pitch alignment_yield bonding_yield dielectric_bond_defect_density : ℝ)
    (static : Bool) : Except Unit Assembly :=
  let a : Assembly :=
    { name := name, materials_cost_per_mm2 := materials_cost_per_mm2,
      picknplace_machine_cost := picknplace_machine_cost,
      picknplace_machine_lifetime := picknplace_machine_lifetime,
      picknplace_machine_uptime := picknplace_machine_uptime,
      picknplace_technician_yearly_cost := picknplace_technician_yearly_cost,
      picknplace_time := picknplace_time, picknplace_group := picknplace_group,
      bonding_machine_cost := bonding_machine_cost,
      bonding_machine_lifetime := bonding_machine_lifetime,
      bonding_machine_uptime := bonding_machine_uptime,
      bonding_machine_technician_yearly_cost := bonding_machine_technician_yearly_cost,
      bonding_time := bonding_time, bonding_group := bonding_group,
      die_separation := die_separation, edge_exclusion := edge_exclusion,
      max_pad_current_density := max_pad_current_density,
      bonding_pitch := bonding_pitch,
      picknplace_cost_per_second := none, bonding_cost_per_second := none,
      bonding_yield := bonding_yield, alignment_yield := alignment_yield,
      dielectric_bond_defect_density := dielectric_bond_defect_density,
      static := static }
  if name = "" then Except.ok { a with static := false }
  else Except.error ()

def Assembly.set_name (a : Assembly) (value : String) : Assembly × ℕ :=
  if a.static then (a, 1) else ({ a with name := value }, 0)

def Assembly.set_materials_cost_per_mm2 (a : Assembly) (value : ℝ) : Assembly × ℕ :=
  if a.static then (a, 1) else ({ a with materials_cost_per_mm2 := value }, 0)

def Assembly.set_picknplace_machine_cost (a : Assembly) (value : ℝ) : Assembly × ℕ :=
  if a.static then (a, 1) else ({ a with picknplace_machine_cost := value }, 0)

def Assembly.set_picknplace_machine_lifetime (a : Assembly) (value : ℝ) : Assembly × ℕ :=
  if a.static then (a, 1) else ({ a with picknplace_machine_lifetime := value }, 0)

def Assembly.set_picknplace_machine_uptime (a : Assembly) (value : ℝ) : Assembly × ℕ :=
  if a.static then (a, 1) else ({ a with picknplace_machine_uptime := value }, 0)

def Assembly.set_picknplace_technician_yearly_cost (a : Assembly) (value : ℝ) : Assembly × ℕ :=
  if a.static then (a, 1) else ({ a with picknplace_technician_yearly_cost := value }, 0)

def Assembly.set_picknplace_time (a : Assembly) (value : ℝ) : Assembly × ℕ :=
  if a.static then (a, 1) else ({ a with picknplace_time := value }, 0)

def Assembly.set_picknplace_group (a : Assembly) (value : ℝ) : Assembly × ℕ :=
  if a.static then (a, 1) else ({ a with picknplace_group := value }, 0)

def Assembly.set_bonding_machine_cost (a : Assembly) (value : ℝ) : Assembly × ℕ :=
  if a.static then (a, 1) else ({ a with bonding_machine_cost := value }, 0)

def Assembly.set_bonding_machine_lifetime (a : Assembly) (value : ℝ) : Assembly × ℕ :=
  if a.static then (a, 1) else ({ a with bonding_machine_lifetime := value }, 0)

def Assembly.set_bonding_machine_uptime (a : Assembly) (value : ℝ) : Assembly × ℕ :=
  if a.static then (a, 1) else ({ a with bonding_machine_uptime := value }, 0)

def Assembly.set_bonding_technician_yearly_cost (a : Assembly) (value : ℝ) : Assembly × ℕ :=
  if a.static then (a, 1) else ({ a with bonding_machine_technician_yearly_cost := value }, 0)

def Assembly.set_bonding_time (a : Assembly) (value : ℝ) : Assembly × ℕ :=
  if a.static then (a, 1) else ({ a with bonding_time := value }, 0)

def Assembly.set_bonding_group (a : Assembly) (value : ℝ) : Assembly × ℕ :=
  if a.static then (a, 1) else ({ a with bonding_group := value }, 0)

def Assembly.set_die_separation (a : Assembly) (value : ℝ) : Assembly × ℕ :=
  if a.static then (a, 1) else ({ a with die_separation := value }, 0)

def Assembly.set_edge_exclusion (a : Assembly) (value : ℝ) : Assembly × ℕ :=
  if a.static then (a, 1) else ({ a with edge_exclusion := value }, 0)

def Assembly.set_bonding_pitch (a : Assembly) (value : ℝ) : Assembly × ℕ :=
  if a.static then (a, 1) else ({ a with bonding_pitch := value }, 0)

def Assembly.set_max_pad_current_density (a : Assembly) (value : ℝ) : Assembly × ℕ :=
  if a.static then (a, 1) else ({ a with max_pad_current_density := value }, 0)

def Assembly.set_alignment_yield (a : Assembly) (value : ℝ) : Assembly × ℕ :=
  if a.static then (a, 1) else ({ a with alignment_yield := value }, 0)

def Assembly.set_bonding_yield (a : Assembly) (value : ℝ) : Assembly × ℕ :=
  if a.static then (a, 1) else ({ a with bonding_yield := value }, 0)

def Assembly.set_dielectric_bond_defect_density (a : Assembly) (value : ℝ) : Assembly × ℕ :=
  if a.static then (a, 1) else ({ a with dielectric_bond_defect_density := value }, 0)

/-- Assembly.compute_picknplace_cost_per_second (design.py lines 1383-1389). -/
def Assembly.compute_picknplace_cost_per_second (a : Assembly) : ℝ :=
  let machine_cost_per_year := a.picknplace_machine_cost / a.picknplace_machine_lifetime
  let technician_cost_per_year := a.picknplace_technician_yearly_cost
  let picknplace_cost_per_year := machine_cost_per_year + technician_cost_per_year
  picknplace_cost_per_year / (365 * 24 * 60 * 60) * a.picknplace_machine_uptime

/-- Assembly.compute_bonding_cost_per_second (design.py lines 1391-1397). -/
def Assembly.compute_bonding_cost_per_second (a : Assembly) : ℝ :=
  let machine_cost_per_year := a.bonding_machine_cost / a.bonding_machine_lifetime
  let technician_cost_per_year := a.bonding_machine_technician_yearly_cost
  let bonding_cost_per_year := machine_cost_per_year + technician_cost_per_year
  bonding_cost_per_year / (365 * 24 * 60 * 60) * a.bonding_machine_uptime

/-- Assembly.set_picknplace_cost_per_second (design.py lines 1328-1330):
recomputes and stores the cached rate with NO static-latch guard, always
returning 0. -/
def Assembly.set_picknplace_cost_per_second (a : Assembly) : Assembly × ℕ :=
  ({ a with picknplace_cost_per_second := some a.compute_picknplace_cost_per_second }, 0)

/-- Assembly.set_bonding_cost_per_second (design.py lines 1337-1339):
recomputes and stores the cached rate with NO static-latch guard, always
returning 0. -/
def Assembly.set_bonding_cost_per_second (a : Assembly) : Assembly × ℕ :=
  ({ a with bonding_cost_per_second := some a.compute_bonding_cost_per_second }, 0)

/-- Assembly.get_picknplace_cost_per_second (design.py lines 1323-1326):
the cached value, computed on demand when absent. -/
def Assembly.get_picknplace_cost_per_second (a : Assembly) : ℝ :=
  match a.picknplace_cost_per_second with
  | some v => v
  | none => a.compute_picknplace_cost_per_second

/-- Assembly.get_bonding_cost_per_second (design.py lines 1332-1335). -/
def Assembly.get_bonding_cost_per_second (a : Assembly) : ℝ :=
  match a.bonding_cost_per_second with
  | some v => v
  | none => a.compute_bonding_cost_per_second

/-- Assembly.compute_picknplace_time (design.py lines 1369-1372):
`math.ceil(n_chips / group) * picknplace_time`. -/
def Assembly.compute_picknplace_time (a : Assembly) (n_chips : ℕ) : ℝ :=
  let picknplace_steps : ℤ := ⌈(n_chips : ℝ) / a.picknplace_group⌉
  a.picknplace_time * (picknplace_steps : ℝ)

/-- Assembly.compute_bonding_time (design.py lines 1374-1377). -/
def Assembly.compute_bonding_time (a : Assembly) (n_chips : ℕ) : ℝ :=
  let bonding_steps : ℤ := ⌈(n_chips : ℝ) / a.bonding_group⌉
  a.bonding_time * (bonding_steps : ℝ)

/-- Assembly.assembly_cost (design.py lines 1400-1404): machine time costs
for pick-and-place and bonding plus the materials cost of the area. -/
def Assembly.assembly_cost (a : Assembly) (n_chips : ℕ) (area : ℝ) : ℝ :=
  let assembly_cost :=
    a.get_picknplace_cost_per_second * a.compute_picknplace_time n_chips +
      a.get_bonding_cost_per_second * a.compute_bonding_time n_chips
  assembly_cost + a.materials_cost_per_mm2 * area

/-- Assembly.assembly_yield (design.py lines 1406-1417):
`alignment_yield ** n_chips * bonding_yield ** n_bonds *
(1 - dielectric_bond_defect_density * area)`; the exponents are Python
float powers (`Real.rpow`, the bond count can be fractional through the
bidirectional 0.5 discount). -/
def Assembly.assembly_yield (a : Assembly) (n_chips n_bonds area : ℝ) : ℝ :=
  let assem_yield : ℝ := 1.0
  let assem_yield := assem_yield * a.alignment_yield ^ n_chips
  let assem_yield := assem_yield * a.bonding_yield ^ n_bonds
  let dielectric_bond_area := area
  let dielectric_bond_yield := 1 - a.dielectric_bond_defect_density * dielectric_bond_area
  assem_yield * dielectric_bond_yield

/-! ## Test (design.py, class Test) -/

structure Test where
  name : String
  test_self : Bool
  test_assembly : Bool
  self_defect_coverage : ℝ
  assembly_defect_coverage : ℝ
  self_test_cost_per_mm2 : ℝ
  assembly_test_cost_per_mm2 : ℝ
  self_pattern_count : ℝ
  assembly_pattern_count : ℝ
  self_test_failure_dist : ℤ
  assembly_test_failure_dist : ℤ
  static : Bool

def Test.set_name (t : Test) (value : String) : Test × ℕ :=
  if t.static then (t, 1) else ({ t with name := value }, 0)

def Test.set_test_self (t : Test) (value : Bool) : Test × ℕ :=
  if t.static then (t, 1) else ({ t with test_self := value }, 0)

def Test.set_test_assembly (t : Test) (value : Bool) : Test × ℕ :=
  if t.static then (t, 1) else ({ t with test_assembly := value }, 0)

def Test.set_self_defect_coverage (t : Test) (value : ℝ) : Test × ℕ :=
  if t.static then (t, 1) else ({ t with self_defect_coverage := value }, 0)

def Test.set_assembly_defect_coverage (t : Test) (value : ℝ) : Test × ℕ :=
  if t.static then (t, 1) else ({ t with assembly_defect_coverage := value }, 0)

def Test.set_self_test_cost_per_mm2 (t : Test) (value : ℝ) : Test × ℕ :=
  if t.static then (t, 1) else ({ t with self_test_cost_per_mm2 := value }, 0)

def Test.set_assembly_test_cost_per_mm2 (t : Test) (value : ℝ) : Test × ℕ :=
  if t.static then (t, 1) else ({ t with assembly_test_cost_per_mm2 := value }, 0)

def Test.set_self_pattern_count (t : Test) (value : ℝ) : Test × ℕ :=
  if t.static then (t, 1) else ({ t with self_pattern_count := value }, 0)

def Test.set_assembly_pattern_count (t : Test) (value : ℝ) : Test × ℕ :=
  if t.static then (t, 1) else ({ t with assembly_pattern_count := value }, 0)

def Test.set_self_test_failure_dist (t : Test) (value : ℤ) : Test × ℕ :=
  if t.static then (t, 1) else ({ t with self_test_failure_dist := value }, 0)

def Test.set_assembly_test_failure_dist (t : Test) (value : ℤ) : Test × ℕ :=
  if t.static then (t, 1) else ({ t with assembly_test_failure_dist := value }, 0)

/-! ## Chip (design.py, class Chip)

Chip.get_chip_list (design.py lines 2743-2748) returns a NESTED Python list:
each child contributes its own chip list as a single list element, then the
chip's own name is appended as a bare string.  Membership tests against it
(`block_names[i] in internal_block_list`) therefore only ever match the bare
strings, because a string never compares equal to a list. -/

inductive PyStrList where
  | str : String → PyStrList
  | list : List PyStrList → PyStrList

/-- Python `s in xs` for a nested string list: `==` against each element;
a string is never `==` to a list. -/
def pyStrListMem (s : String) (xs : List PyStrList) : Bool :=
  xs.any fun e =>
    match e with
    | PyStrList.str t => s == t
    | PyStrList.list _ => false

/-- Python `l[:]`: a shallow copy of the list, with the same elements. -/
def pySlice {α : Type} (l : List α) : List α := l

/-- The `for io in io_list: if io.get_type() == io_type: break` idiom
(design.py lines 2498-2500, 2683-2685, 2726-2728): after the loop, `io` is
the first element matching the type; when nothing matches it is the LAST
element of the list, and with an empty list `io` is unbound (NameError,
modelled as `none`). -/
def findIoForType (ios : List Io) (io_type : String) : Option Io :=
  match ios.find? (fun io => io.type == io_type) with
  | some io => some io
  | none => ios.getLast?

/-- The `signal_with_reach_count` dictionary update of
Chip.get_signal_count (design.py lines 2700-2703), as an association list
keyed by the reach value (the source keys by `str(reach)`). -/
def updateReach : List (ℝ × ℝ) → ℝ → ℝ → List (ℝ × ℝ)
  | [], reach, add => [(reach, add)]
  | (k, v) :: rest, reach, add =>
    if k = reach then (k, v + add) :: rest
    else (k, v) :: updateReach rest reach add

/-- The non-recursive attributes of a Chip, as assigned by Chip.__init__;
the derived attributes (area, powers, yields, qualities, costs) are the
cached values the constructor stores via their setters. -/
structure ChipData where
  name : String
  core_area : ℝ
  aspect_ratio : ℝ
  x_location : Option ℝ
  y_location : Option ℝ
  bb_area : Option ℝ
  bb_cost : Option ℝ
  bb_quality : Option ℝ
  bb_power : Option ℝ
  fraction_memory : ℝ
  fraction_logic : ℝ
  fraction_analog : ℝ
  reticle_share : ℝ
  quantity : ℤ
  buried : Bool
  power : ℝ
  core_voltage : ℝ
  wafer_process : WaferProcess
  assembly_process : Assembly
  test_process : Test
  stackup : List Layer
  global_adjacency_matrix : List (String × List (List ℝ))
  average_bandwidth_utilization : List (String × List (List ℝ))
  block_names : List String
  io_list : List Io
  stack_power : ℝ
  io_power : ℝ
  total_power : ℝ
  nre_design_cost : ℝ
  area : ℝ
  self_true_yield : ℝ
  self_test_yield : ℝ
  self_quality : ℝ
  chip_true_yield : ℝ
  chip_test_yield : ℝ
  quality : ℝ
  self_cost : ℝ
  cost : ℝ
  static : Bool

inductive Chip where
  | mk : ChipData → List Chip → Chip

def Chip.data : Chip → ChipData
  | Chip.mk d _ => d

def Chip.chips : Chip → List Chip
  | Chip.mk _ cs => cs

mutual

/-- Chip.get_chip_list (design.py lines 2743-2748): the nested name list of
the chip's subtree (children's lists as nested elements, own name last). -/
def Chip.get_chip_list : Chip → List PyStrList
  | Chip.mk d cs => chipListOfChildren cs ++ [PyStrList.str d.name]

def chipListOfChildren : List Chip → List PyStrList
  | [] => []
  | chip :: rest => PyStrList.list chip.get_chip_list :: chipListOfChildren rest

end

/-- Chip.expandedArea (design.py lines 2479-2483): a rectangle of the given
area and aspect ratio inflated by `border` on every side.  The source gives
`aspect_ratio` the default 1.0; callers that rely on the default pass 1.0
explicitly here. -/
def Chip.expandedArea (_c : Chip) (area border aspect_ratio : ℝ) : ℝ :=
  let x := Real.sqrt (area * aspect_ratio)
  let y := Real.sqrt (area / aspect_ratio)
  (x + 2 * border) * (y + 2 * border)

/-- Chip.get_stacked_die_area (design.py lines 2327-2334): non-buried
children expanded by half the die separation, then one more expansion by the
assembly edge exclusion (default aspect ratio). -/
def Chip.get_stacked_die_area (c : Chip) : ℝ :=
  let stacked_die_area :=
    c.chips.foldl
      (fun acc chip =>
        if chip.data.buried then acc
        else acc + c.expandedArea chip.data.area
          (c.data.assembly_process.die_separation / 2) chip.data.aspect_ratio)
      0.0
  c.expandedArea stacked_die_area c.data.assembly_process.edge_exclusion 1.0

/-- Chip.get_io_area (design.py lines 2486-2504).  The block index is the
FIRST match of the chip's name (the search loop breaks); a chip absent from
the block list returns 0.  For each interconnect type the source adds
`sum(adj[t][bi][:]) * tx_area + sum(adj[t][:][bi]) * rx_area`; since
`adj[t][:]` is a copy of the whole matrix, `adj[t][:][bi]` is again ROW `bi`,
not the column, so the row sum weights both terms.  No subtree or self
exclusion is applied.  `none` models the NameError when the io list is empty
and an interconnect type is processed. -/
def ioAreaLoop (ios : List Io) (block_index : ℕ) :
    List (String × List (List ℝ)) → ℝ → Option ℝ
  | [], io_area => some io_area
  | e :: rest, io_area =>
    match findIoForType ios e.1 with
    | none => none
    | some io =>
      ioAreaLoop ios block_index rest
        (io_area + ((e.2.getD block_index []).sum * io.tx_area +
          ((pySlice e.2).getD block_index []).sum * io.rx_area))

def Chip.get_io_area (c : Chip) : Option ℝ :=
  match c.data.block_names.findIdx? (fun s => s == c.data.name) with
  | none => some 0
  | some block_index =>
    ioAreaLoop c.data.io_list block_index c.data.global_adjacency_matrix 0.0

/-- Chip.get_signal_count (design.py lines 2665-2711).  The block index is
the LAST match of the chip's name (the search loop does not break); the
internal indices are those whose block name occurs as a bare string in the
nested `internal_block_list`.  Column entries use the correct `adj[t][j][bi]`
indexing here.  Returns the signal count and the per-reach counts. -/
def Chip.get_signal_count (c : Chip) (internal_block_list : List PyStrList) :
    Option (ℝ × List (ℝ × ℝ)) :=
  let block_index :=
    (List.range c.data.block_names.length).foldl
      (fun acc i => if c.data.block_names.getD i "" == c.data.name then some i else acc) none
  let internal_block_list_indices :=
    (List.range c.data.block_names.length).filter
      (fun i => pyStrListMem (c.data.block_names.getD i "") internal_block_list)
  match block_index with
  | none => some (0, [])
  | some bi =>
    c.data.global_adjacency_matrix.foldlM
      (fun st e =>
        match findIoForType c.data.io_list e.1 with
        | none => none
        | some io =>
          let bidirectional_factor : ℝ := if pyTruthy io.bidirectional then 0.5 else 1.0
          let row := e.2.getD bi []
          some ((List.range row.length).foldl
            (fun st2 j =>
              if j ∈ internal_block_list_indices then st2
              else
                let add := (row.getD j 0 + (e.2.getD j []).getD bi 0) *
                  io.wire_count * bidirectional_factor
                (st2.1 + add, updateReach st2.2 io.reach add))
            st))
      ((0 : ℝ), ([] : List (ℝ × ℝ)))

/-- Chip.get_chips_signal_count (design.py lines 2750-2757): the children's
signal counts against the chip's own (nested) chip list. -/
def Chip.get_chips_signal_count (c : Chip) : Option ℝ :=
  let internal_chip_list := c.get_chip_list
  c.chips.foldlM
    (fun acc chip => do
      let sc ← chip.get_signal_count internal_chip_list
      pure (acc + sc.1))
    (0 : ℝ)

/-- Chip.quality_yield (design.py lines 2659-2663): the product of the
children's cached qualities, via the source's accumulator loop. -/
def Chip.quality_yield (c : Chip) : ℝ :=
  c.chips.foldl (fun q chip => q * chip.data.quality) 1.0

/-- Chip.compute_chip_yield (design.py lines 2760-2769). -/
def Chip.compute_chip_yield (c : Chip) : Option ℝ := do
  let chip_true_yield := c.data.self_quality
  let quality_yield := c.quality_yield
  let scount ← c.get_chips_signal_count
  let assembly_yield :=
    c.data.assembly_process.assembly_yield (c.chips.length : ℝ) scount c.get_stacked_die_area
  pure (chip_true_yield *
    (quality_yield * assembly_yield * c.data.wafer_process.wafer_process_yield))

/-- Chip.compute_stack_power (design.py lines 1920-1924). -/
def Chip.compute_stack_power (c : Chip) : ℝ :=
  c.chips.foldl (fun acc chip => acc + chip.data.total_power) 0.0

/-- Chip.compute_nre_front_end_cost (design.py lines 2347-2351). -/
def Chip.compute_nre_front_end_cost (c : Chip) : ℝ :=
  c.data.core_area *
    (c.data.wafer_process.nre_front_end_cost_per_mm2_memory * c.data.fraction_memory +
      c.data.wafer_process.nre_front_end_cost_per_mm2_logic * c.data.fraction_logic +
      c.data.wafer_process.nre_front_end_cost_per_mm2_analog * c.data.fraction_analog)

/-- Chip.compute_nre_back_end_cost (design.py lines 2353-2357). -/
def Chip.compute_nre_back_end_cost (c : Chip) : ℝ :=
  c.data.core_area *
    (c.data.wafer_process.nre_back_end_cost_per_mm2_memory * c.data.fraction_memory +
      c.data.wafer_process.nre_back_end_cost_per_mm2_logic * c.data.fraction_logic +
      c.data.wafer_process.nre_back_end_cost_per_mm2_analog * c.data.fraction_analog)

/-- Chip.compute_nre_design_cost (design.py lines 2359-2361). -/
def Chip.compute_nre_design_cost (c : Chip) : ℝ :=
  c.compute_nre_front_end_cost + c.compute_nre_back_end_cost

/-- Test.compute_assembly_test_cost (design.py lines 1650-1669).  The
stochastic derating factor is injected as `draw` (the sample from the
selected distribution).  Note the source's duplicated `== 1` test: the
branch labeled Uniform is dead, distribution 2 is exponential, 3 is
log-normal, and any other selector leaves `derating_factor` unbound
(NameError, modelled as `none`). -/
def Test.compute_assembly_test_cost (t : Test) (chip : Chip) (draw : ℝ) : Option ℝ :=
  if t.test_assembly = false then some 0.0
  else
    let area := chip.chips.foldl (fun acc c => acc + c.data.core_area) chip.data.core_area
    let test_cost := area * t.assembly_test_cost_per_mm2 * t.assembly_pattern_count
    if t.assembly_test_failure_dist = 1 then some (draw * test_cost)
    else if t.assembly_test_failure_dist = 1 then some (1.0 * test_cost)
    else if t.assembly_test_failure_dist = 2 then some (draw * test_cost)
    else if t.assembly_test_failure_dist = 3 then some (draw * test_cost)
    else none

/-- Chip.compute_cost (design.py lines 2817-2836): own cached self cost plus
the children's cached costs, the assembly cost of the stacked area, and the
assembly test cost, divided by the cached chip test yield. -/
def Chip.compute_cost (c : Chip) (draw : ℝ) : Option ℝ :=
  let cost := c.data.self_cost
  let stack_cost := c.chips.foldl (fun acc chip => acc + chip.data.cost) 0.0
  let cost := cost + stack_cost
  let assembly_cost :=
    c.data.assembly_process.assembly_cost c.chips.length c.get_stacked_die_area
  let cost := cost + assembly_cost
  match c.data.test_process.compute_assembly_test_cost c draw with
  | none => none
  | some assembly_test_cost => some ((cost + assembly_test_cost) / c.data.chip_test_yield)

/-! ### Chip setters (design.py lines 2008-2375).  All the value setters are
guarded by the static latch; `set_stack_power` and `set_nre_design_cost` are
not (they recompute their field and return 0 unconditionally, and
`set_stack_power` also discards its argument). -/

def Chip.set_name (c : Chip) (value : String) : Chip × ℕ :=
  if c.data.static then (c, 1) else (Chip.mk { c.data with name := value } c.chips, 0)

def Chip.set_aspect_ratio (c : Chip) (value : ℝ) : Chip × ℕ :=
  if c.data.static then (c, 1) else (Chip.mk { c.data with aspect_ratio := value } c.chips, 0)

def Chip.set_x_location (c : Chip) (value : Option ℝ) : Chip × ℕ :=
  if c.data.static then (c, 1) else (Chip.mk { c.data with x_location := value } c.chips, 0)

def Chip.set_y_location (c : Chip) (value : Option ℝ) : Chip × ℕ :=
  if c.data.static then (c, 1) else (Chip.mk { c.data with y_location := value } c.chips, 0)

def Chip.set_core_area (c : Chip) (value : ℝ) : Chip × ℕ :=
  if c.data.static then (c, 1) else (Chip.mk { c.data with core_area := value } c.chips, 0)

def Chip.set_fraction_memory (c : Chip) (value : ℝ) : Chip × ℕ :=
  if c.data.static then (c, 1) else (Chip.mk { c.data with fraction_memory := value } c.chips, 0)

def Chip.set_fraction_logic (c : Chip) (value : ℝ) : Chip × ℕ :=
  if c.data.static then (c, 1) else (Chip.mk { c.data with fraction_logic := value } c.chips, 0)

def Chip.set_fraction_analog (c : Chip) (value : ℝ) : Chip × ℕ :=
  if c.data.static then (c, 1) else (Chip.mk { c.data with fraction_analog := value } c.chips, 0)

def Chip.set_reticle_share (c : Chip) (value : ℝ) : Chip × ℕ :=
  if c.data.static then (c, 1) else (Chip.mk { c.data with reticle_share := value } c.chips, 0)

def Chip.set_buried (c : Chip) (value : Bool) : Chip × ℕ :=
  if c.data.static then (c, 1) else (Chip.mk { c.data with buried := value } c.chips, 0)

def Chip.set_self_cost (c : Chip) (value : ℝ) : Chip × ℕ :=
  if c.data.static then (c, 1) else (Chip.mk { c.data with self_cost := value } c.chips, 0)

def Chip.set_cost (c : Chip) (value : ℝ) : Chip × ℕ :=
  if c.data.static then (c, 1) else (Chip.mk { c.data with cost := value } c.chips, 0)

def Chip.set_self_true_yield (c : Chip) (value : ℝ) : Chip × ℕ :=
  if c.data.static then (c, 1) else (Chip.mk { c.data with self_true_yield := value } c.chips, 0)

def Chip.set_chip_true_yield (c : Chip) (value : ℝ) : Chip × ℕ :=
  if c.data.static then (c, 1) else (Chip.mk { c.data with chip_true_yield := value } c.chips, 0)

def Chip.set_self_test_yield (c : Chip) (value : ℝ) : Chip × ℕ :=
  if c.data.static then (c, 1) else (Chip.mk { c.data with self_test_yield := value } c.chips, 0)

def Chip.set_chip_test_yield (c : Chip) (value : ℝ) : Chip × ℕ :=
  if c.data.static then (c, 1) else (Chip.mk { c.data with chip_test_yield := value } c.chips, 0)

def Chip.set_self_quality (c : Chip) (value : ℝ) : Chip × ℕ :=
  if c.data.static then (c, 1) else (Chip.mk { c.data with self_quality := value } c.chips, 0)

def Chip.set_quality (c : Chip) (value : ℝ) : Chip × ℕ :=
  if c.data.static then (c, 1) else (Chip.mk { c.data with quality := value } c.chips, 0)

def Chip.set_assembly_process (c : Chip) (value : Assembly) : Chip × ℕ :=
  if c.data.static then (c, 1) else (Chip.mk { c.data with assembly_process := value } c.chips, 0)

def Chip.set_stackup (c : Chip) (layer_list : List Layer) : Chip × ℕ :=
  if c.data.static then (c, 1) else (Chip.mk { c.data with stackup := layer_list } c.chips, 0)

def Chip.set_test_process (c : Chip) (value : Test) : Chip × ℕ :=
  if c.data.static then (c, 1) else (Chip.mk { c.data with test_process := value } c.chips, 0)

def Chip.set_quantity (c : Chip) (value : ℤ) : Chip × ℕ :=
  if c.data.static then (c, 1) else (Chip.mk { c.data with quantity := value } c.chips, 0)

def Chip.set_power (c : Chip) (value : ℝ) : Chip × ℕ :=
  if c.data.static then (c, 1) else (Chip.mk { c.data with power := value } c.chips, 0)

def Chip.set_core_voltage (c : Chip) (value : ℝ) : Chip × ℕ :=
  if c.data.static then (c, 1) else (Chip.mk { c.data with core_voltage := value } c.chips, 0)

def Chip.set_io_power (c : Chip) (value : ℝ) : Chip × ℕ :=
  if c.data.static then (c, 1) else (Chip.mk { c.data with io_power := value } c.chips, 0)

def Chip.set_total_power (c : Chip) (value : ℝ) : Chip × ℕ :=
  if c.data.static then (c, 1) else (Chip.mk { c.data with total_power := value } c.chips, 0)

/-- Chip.set_stack_power (design.py lines 2293-2295): no static-latch guard;
the passed value is ignored and the field is recomputed; always returns 0. -/
def Chip.set_stack_power (c : Chip) (_value : ℝ) : Chip × ℕ :=
  (Chip.mk { c.data with stack_power := c.compute_stack_power } c.chips, 0)

/-- Chip.set_nre_design_cost (design.py lines 2366-2368): no static-latch
guard; recomputes the field and always returns 0. -/
def Chip.set_nre_design_cost (c : Chip) : Chip × ℕ :=
  (Chip.mk { c.data with nre_design_cost := c.compute_nre_design_cost } c.chips, 0)

mutual

/-- The flat list of chip names inside a chip's subtree (the chip itself and
all descendants).  Used only to transcribe the claim's phrase "blocks not
inside the chip's own subtree" for comparison against the code. -/
def subtreeNames : Chip → List String
  | Chip.mk d cs => subtreeNamesOfChildren cs ++ [d.name]

def subtreeNamesOfChildren : List Chip → List String
  | [] => []
  | chip :: rest => subtreeNames chip ++ subtreeNamesOfChildren rest

end

/-- The io-area formula as claim C5 words it (written from the claim, not
from the source, for comparison): for each interconnect type, the
adjacency-matrix ROW entries at the chip's block index weighted by the tx pad
area plus the COLUMN entries weighted by the rx pad area, restricted to
blocks outside the chip's own subtree. -/
def claimIOArea (c : Chip) : ℝ :=
  match c.data.block_names.findIdx? (fun s => s == c.data.name) with
  | none => 0
  | some bi =>
    (c.data.global_adjacency_matrix.map fun e =>
      match c.data.io_list.find? (fun io => io.type == e.1) with
      | none => 0
      | some io =>
        ((List.range c.data.block_names.length).map fun j =>
          if c.data.block_names.getD j "" ∈ subtreeNames c then 0
          else (e.2.getD bi []).getD j 0 * io.tx_area +
            (e.2.getD j []).getD bi 0 * io.rx_area).sum).sum

/-! ## Concrete fixtures used by witnesses and counterexamples -/

def baseWaferProcess : WaferProcess :=
  { name := "wp", wafer_diameter := 10, edge_exclusion := 0, wafer_process_yield := 1,
    dicing_distance := 0, reticle_x := 1, reticle_y := 1, wafer_fill_grid := false,
    nre_front_end_cost_per_mm2_memory := 0, nre_back_end_cost_per_mm2_memory := 0,
    nre_front_end_cost_per_mm2_logic := 0, nre_back_end_cost_per_mm2_logic := 0,
    nre_front_end_cost_per_mm2_analog := 0, nre_back_end_cost_per_mm2_analog := 0,
    static := true }

def baseAssembly : Assembly :=
  { name := "ap", materials_cost_per_mm2 := 1, picknplace_machine_cost := 0,
    picknplace_machine_lifetime := 1, picknplace_machine_uptime := 1,
    picknplace_technician_yearly_cost := 0, picknplace_time := 0, picknplace_group := 1,
    bonding_machine_cost := 0, bonding_machine_lifetime := 1, bonding_machine_uptime := 1,
    bonding_machine_technician_yearly_cost := 0, bonding_time := 0, bonding_group := 1,
    die_separation := 2, edge_exclusion := 0, max_pad_current_density := 1,
    bonding_pitch := 1, picknplace_cost_per_second := some 0,
    bonding_cost_per_second := some 0, bonding_yield := 1, alignment_yield := 1,
    dielectric_bond_defect_density := 0, static := true }

def baseTest : Test :=
  { name := "tp", test_self := false, test_assembly := false, self_defect_coverage := 0,
    assembly_defect_coverage := 0, self_test_cost_per_mm2 := 0,
    assembly_test_cost_per_mm2 := 0, self_pattern_count := 0, assembly_pattern_count := 0,
    self_test_failure_dist := 2, assembly_test_failure_dist := 2, static := true }

def baseLayer : Layer :=
  { name := "lp", active := true, cost_per_mm2 := 1, defect_density := 1,
    critical_area_ratio := 1, clustering_factor := 1, litho_percent := 0, mask_cost := 0,
    stitching_yield := 1, static := true }

def baseChipData : ChipData :=
  { name := "A", core_area := 1, aspect_ratio := 1, x_location := none, y_location := none,
    bb_area := none, bb_cost := none, bb_quality := none, bb_power := none,
    fraction_memory := 0, fraction_logic := 1, fraction_analog := 0, reticle_share := 1,
    quantity := 1, buried := false, power := 0, core_voltage := 1,
    wafer_process := baseWaferProcess, assembly_process := baseAssembly,
    test_process := baseTest, stackup := [], global_adjacency_matrix := [],
    average_bandwidth_utilization := [], block_names := [], io_list := [],
    stack_power := 0, io_power := 0, total_power := 0, nre_design_cost := 0, area := 1,
    self_true_yield := 1, self_test_yield := 1, self_quality := 1, chip_true_yield := 1,
    chip_test_yield := 1, quality := 1, self_cost := 0, cost := 0, static := false }

/-- Layer with zero critical area ratio (C3 counterexample): `layer_yield`
is then constantly 1 whatever the defect density. -/
def layer3 : Layer :=
  { baseLayer with defect_density := 1, clustering_factor := 1, critical_area_ratio := 0 }

/-- Assembly with a unit dielectric bond defect density (C4 counterexample). -/
def assembly4 : Assembly :=
  { baseAssembly with
    alignment_yield := 1, bonding_yield := 1, dielectric_bond_defect_density := 1 }

/-- Assembly with fractional yields (C4 witness instantiation). -/
def assembly4w : Assembly :=
  { baseAssembly with
    alignment_yield := 1 / 2, bonding_yield := 1 / 2,
    dielectric_bond_defect_density := 0 }

/-- Layer with a negative litho percent (C6 counterexample). -/
def layer6 : Layer := { baseLayer with litho_percent := -1 }

/-- Leaf child chip of area 1 for the C2 counterexample. -/
def child2 : Chip := Chip.mk { baseChipData with name := "B" } []

/-- Parent chip with the single leaf child `child2`, no adjacency entries,
assembly test disabled, die separation 2: the constructor-cached fields are
the values the Chip.__init__ pipeline computes for this configuration. -/
def parent2 : Chip := Chip.mk { baseChipData with name := "A" } [child2]

/-- Interconnect type for the C5 counterexample. -/
def io5 : Io :=
  { type := "t", rx_area := 3, tx_area := 2, shoreline := 0, bandwidth := 0,
    wire_count := 1, bidirectional := Sum.inr false, energy_per_bit := 0, reach := 1,
    static := true }

/-- Chip with two blocks and an asymmetric adjacency matrix
(row sum 1 at index 0, column sum 5 at index 0) for the C5 counterexample. -/
def chip5 : Chip :=
  Chip.mk
    { baseChipData with
      name := "A", block_names := ["A", "B"], io_list := [io5],
      global_adjacency_matrix := [("t", [[0, 1], [5, 0]])] } []

/-- Interconnect constructed with the string "False" for `bidirectional`
(C10): the raw string is stored, and a non-empty string is truthy. -/
def io10 : Io := Io.init "t" 1 2 0.5 3 4 "False" 0.9 7 true

/-- Leaf chip wired to one external block through `io10` (C10). -/
def chip10 : Chip :=
  Chip.mk
    { baseChipData with
      name := "A", block_names := ["A", "B"], io_list := [io10],
      global_adjacency_matrix := [("t", [[0, 1], [1, 0]])] } []

/-- Static chip whose cached `stack_power` disagrees with the recomputed
value (C8 counterexample). -/
def chip8 : Chip := Chip.mk { baseChipData with static := true, stack_power := 5 } []

/-! ## Theorems -/

/-- C9: Assembly.__init__ never returns an object with `static == True`:
a successful construction (only possible with an empty name) ends with
`static = False`, and every call with a non-empty name evaluates the
never-assigned `machine_cost_list` attribute and raises before returning. -/
theorem C9_assembly_init_never_static (name : String)
    (materials_cost_per_mm2 picknplace_machine_cost picknplace_machine_lifetime
      picknplace_machine_uptime picknplace_technician_yearly_cost picknplace_time
      picknplace_group bonding_machine_cost bonding_machine_lifetime
      bonding_machine_uptime bonding_machine_technician_yearly_cost bonding_time
      bonding_group die_separation edge_exclusion max_pad_current_density
      bonding_pitch alignment_yield bonding_yield dielectric_bond_defect_density : ℝ)
    (static : Bool) :
    (∀ a : Assembly,
      Assembly.init name materials_cost_per_mm2 picknplace_machine_cost
          picknplace_machine_lifetime picknplace_machine_uptime
          picknplace_technician_yearly_cost picknplace_time picknplace_group
          bonding_machine_cost bonding_machine_lifetime bonding_machine_uptime
          bonding_machine_technician_yearly_cost bonding_time bonding_group
          die_separation edge_exclusion max_pad_current_density bonding_pitch
          alignment_yield bonding_yield dielectric_bond_defect_density static =
        Except.ok a → a.static = false) ∧
    (name ≠ "" →
      Assembly.init name materials_cost_per_mm2 picknplace_machine_cost
          picknplace_machine_lifetime picknplace_machine_uptime
          picknplace_technician_yearly_cost picknplace_time picknplace_group
          bonding_machine_cost bonding_machine_lifetime bonding_machine_uptime
          bonding_machine_technician_yearly_cost bonding_time bonding_group
          die_separation edge_exclusion max_pad_current_density bonding_pitch
          alignment_yield bonding_yield dielectric_bond_defect_density static =
        Except.error ()) := by
  constructor
  · intro a h
    by_cases hn : name = ""
    · simp only [Assembly.init, if_pos hn, Except.ok.injEq] at h
      subst h
      rfl
    · simp [Assembly.init, if_neg hn] at h
  · intro hn
    simp [Assembly.init, hn]

/-- Witness for C9 at concrete inputs: the non-empty name "ap" makes the
constructor raise, as the theorem asserts. -/
theorem C9_assembly_init_never_static_witness :
    Assembly.init "ap" 1 0 1 1 0 0 1 0 1 1 0 0 1 2 0 1 1 1 1 0 true =
      Except.error () :=
  (C9_assembly_init_never_static "ap" 1 0 1 1 0 0 1 0 1 1 0 0 1 2 0 1 1 1 1 0 true).2
    (by decide)

/-- C10: get_bidirectional returns the raw constructor argument (the parsed
boolean is immediately overwritten), a non-empty string such as "False" is
truthy, and consequently a chip whose interconnect was built with
bidirectional = "False" gets the 0.5 discount in Chip.get_signal_count:
its two unit wires of width 4 count as 4 signals, not 8. -/
theorem C10_bidirectional_is_raw_argument :
    (∀ (type : String) (rx_area tx_area shoreline bandwidth wire_count : ℝ)
        (bidirectional : String) (energy_per_bit reach : ℝ) (static : Bool),
        (Io.init type rx_area tx_area shoreline bandwidth wire_count bidirectional
            energy_per_bit reach static).bidirectional = Sum.inl bidirectional) ∧
    pyTruthy io10.bidirectional = true ∧
    (chip10.get_signal_count chip10.get_chip_list).map Prod.fst = some 4 := by
  refine ⟨fun _ _ _ _ _ _ _ _ _ _ => rfl, rfl, ?_⟩
  have hBA : ("B" = "A") = False := by simp
  have hBAb : (("B" == "A") : Bool) = false := by decide
  simp only [chip10, baseChipData, io10, Io.init, Chip.get_signal_count,
    Chip.get_chip_list, chipListOfChildren, Chip.data, Chip.chips, pyStrListMem,
    findIoForType, updateReach, pyTruthy]
  have hF : ¬ ("False" = "") := by simp
  norm_num [List.range_succ, List.foldlM, List.find?, List.filter, hBA, hBAb, hF,
    List.getElem?_cons_zero, List.getElem?_cons_succ, List.getElem?_nil,
    Option.getD_some, Option.getD_none, List.getD]

/-- C7: whenever the square's diagonal exceeds the usable wafer radius
(`(sqrt(square_area) + dicing_distance) * sqrt 2 > (wafer_diameter -
2*edge_exclusion)/2`), compute_cost_per_mm2 returns the 1e9 sentinel as a
normal value: the guard is the first statement of the function, so the
sentinel path performs no division and cannot reach either `sys.exit(1)`
branch (an abnormal outcome would be `Except.error`). -/
theorem C7_cost_per_mm2_sentinel (L : Layer) (wp : WaferProcess) (square_area : ℝ)
    (_h0 : 0 ≤ square_area)
    (hg : (Real.sqrt square_area + wp.dicing_distance) * Real.sqrt 2 >
      (wp.wafer_diameter - 2 * wp.edge_exclusion) / 2) :
    L.compute_cost_per_mm2 square_area wp = Except.ok 1e9 := by
  simp only [Layer.compute_cost_per_mm2]
  rw [if_pos hg]

/-- Witness for C7: a 100 mm2 die on the 10 mm base wafer triggers the
sentinel. -/
theorem C7_cost_per_mm2_sentinel_witness :
    baseLayer.compute_cost_per_mm2 100 baseWaferProcess = Except.ok 1e9 := by
  apply C7_cost_per_mm2_sentinel
  · norm_num
  · have h1 : Real.sqrt 100 = 10 := by
      rw [show (100 : ℝ) = 10 ^ 2 by norm_num, Real.sqrt_sq (by norm_num : (0:ℝ) ≤ 10)]
    have h2 : (1 : ℝ) ≤ Real.sqrt 2 := by
      rw [show (1 : ℝ) = Real.sqrt 1 by rw [Real.sqrt_one]]
      exact Real.sqrt_le_sqrt (by norm_num)
    simp only [baseWaferProcess, h1]
    nlinarith [h2]

/-- The layer yield written without its accumulator lets: the stitching power
is `stitching_yield ^ 0 = 1`. -/
lemma layer_yield_eq (L : Layer) (a : ℝ) :
    L.layer_yield a =
      (1 + L.defect_density * a * L.critical_area_ratio / L.clustering_factor) ^
        (-L.clustering_factor) := by
  simp only [Layer.layer_yield, pow_zero, one_mul, neg_one_mul]

/-- C3 (amended with the positivity of the critical area ratio, which the
source reads and the claim omitted): for a layer with defect density,
clustering factor and critical area ratio all positive, `layer_yield`
matches `stitching_yield^0 * (1 + d*a*c/cf)^(-cf)`, lies in (0, 1] on
nonnegative areas, is strictly decreasing in the area, and is 1 at area 0. -/
theorem C3_layer_yield_props (L : Layer) (hdd : 0 < L.defect_density)
    (hcf : 0 < L.clustering_factor) (hcar : 0 < L.critical_area_ratio) :
    (∀ a : ℝ, L.layer_yield a =
        L.stitching_yield ^ (0 : ℕ) *
          (1 + L.defect_density * a * L.critical_area_ratio / L.clustering_factor) ^
            (-L.clustering_factor)) ∧
    (∀ a : ℝ, 0 ≤ a → 0 < L.layer_yield a ∧ L.layer_yield a ≤ 1) ∧
    (∀ a b : ℝ, 0 ≤ a → a < b → L.layer_yield b < L.layer_yield a) ∧
    L.layer_yield 0 = 1 := by
  have base_eq : ∀ a : ℝ,
      1 + L.defect_density * a * L.critical_area_ratio / L.clustering_factor =
        1 + a * (L.defect_density * L.critical_area_ratio / L.clustering_factor) := by
    intro a; ring
  have hk : 0 < L.defect_density * L.critical_area_ratio / L.clustering_factor :=
    div_pos (mul_pos hdd hcar) hcf
  have hbase : ∀ a : ℝ, 0 ≤ a →
      1 ≤ 1 + L.defect_density * a * L.critical_area_ratio / L.clustering_factor := by
    intro a ha
    rw [base_eq]
    nlinarith [mul_nonneg ha hk.le]
  refine ⟨?_, ?_, ?_, ?_⟩
  · intro a
    rw [layer_yield_eq, pow_zero, one_mul]
  · intro a ha
    rw [layer_yield_eq]
    constructor
    · exact Real.rpow_pos_of_pos (lt_of_lt_of_le one_pos (hbase a ha)) _
    · exact Real.rpow_le_one_of_one_le_of_nonpos (hbase a ha) (neg_nonpos.mpr hcf.le)
  · intro a b ha hab
    rw [layer_yield_eq, layer_yield_eq]
    have h1a : (0:ℝ) <
        1 + L.defect_density * a * L.critical_area_ratio / L.clustering_factor :=
      lt_of_lt_of_le one_pos (hbase a ha)
    have hlt :
        1 + L.defect_density * a * L.critical_area_ratio / L.clustering_factor <
          1 + L.defect_density * b * L.critical_area_ratio / L.clustering_factor := by
      rw [base_eq a, base_eq b]
      have := mul_lt_mul_of_pos_right hab hk
      linarith
    have hpow := Real.rpow_lt_rpow h1a.le hlt hcf
    rw [Real.rpow_neg h1a.le, Real.rpow_neg (h1a.le.trans hlt.le)]
    exact inv_strictAnti₀ (Real.rpow_pos_of_pos h1a _) hpow
  · rw [layer_yield_eq]
    norm_num

/-- Counterexample to C3 as stated: `layer3` has positive defect density and
clustering factor but zero critical area ratio, and its layer yield is the
constant 1, not strictly decreasing (it is equal at areas 0 and 1). -/
theorem C3_counterexample :
    0 < layer3.defect_density ∧ 0 < layer3.clustering_factor ∧ (0:ℝ) < 1 ∧
      ¬ layer3.layer_yield 1 < layer3.layer_yield 0 := by
  have h1 : layer3.layer_yield 1 = 1 := by
    rw [layer_yield_eq]
    norm_num [layer3, baseLayer]
  have h0 : layer3.layer_yield 0 = 1 := by
    rw [layer_yield_eq]
    norm_num [layer3, baseLayer]
  exact ⟨by norm_num [layer3, baseLayer], by norm_num [layer3, baseLayer], by norm_num,
    by rw [h1, h0]; exact lt_irrefl 1⟩

/-- Witness for C3 at the base layer (all parameters 1): the amended theorem
applies and gives `layer_yield 0 = 1`. -/
theorem C3_layer_yield_props_witness : baseLayer.layer_yield 0 = 1 :=
  (C3_layer_yield_props baseLayer (by norm_num [baseLayer]) (by norm_num [baseLayer])
    (by norm_num [baseLayer])).2.2.2

/-- The assembly yield written without its accumulator lets. -/
lemma assembly_yield_eq (a : Assembly) (n_chips n_bonds area : ℝ) :
    a.assembly_yield n_chips n_bonds area =
      a.alignment_yield ^ n_chips * a.bonding_yield ^ n_bonds *
        (1 - a.dielectric_bond_defect_density * area) := by
  simp only [Assembly.assembly_yield]
  norm_num

/-- C4 (amended): assembly_yield always equals
`alignment_yield^n_chips * bonding_yield^n_bonds * (1 - d*area)` and is 1 at
(0,0,0); but the remaining parts of the claim need the parameter bounds the
claim omitted: with alignment and bonding yields in (0,1], a nonnegative
dielectric bond defect density and `d*area ≤ 1`, the value lies in [0,1] and
is weakly decreasing in each of the three arguments. -/
theorem C4_assembly_yield_props (a : Assembly) :
    (∀ n m ar : ℝ, a.assembly_yield n m ar =
        a.alignment_yield ^ n * a.bonding_yield ^ m *
          (1 - a.dielectric_bond_defect_density * ar)) ∧
    a.assembly_yield 0 0 0 = 1.0 ∧
    (∀ n m ar : ℝ, 0 < a.alignment_yield → a.alignment_yield ≤ 1 →
      0 < a.bonding_yield → a.bonding_yield ≤ 1 →
      0 ≤ a.dielectric_bond_defect_density → 0 ≤ n → 0 ≤ m → 0 ≤ ar →
      a.dielectric_bond_defect_density * ar ≤ 1 →
      0 ≤ a.assembly_yield n m ar ∧ a.assembly_yield n m ar ≤ 1) ∧
    (∀ n n2 m ar : ℝ, 0 < a.alignment_yield → a.alignment_yield ≤ 1 →
      0 ≤ a.bonding_yield → a.dielectric_bond_defect_density * ar ≤ 1 → n ≤ n2 →
      a.assembly_yield n2 m ar ≤ a.assembly_yield n m ar) ∧
    (∀ n m m2 ar : ℝ, 0 ≤ a.alignment_yield → 0 < a.bonding_yield →
      a.bonding_yield ≤ 1 → a.dielectric_bond_defect_density * ar ≤ 1 → m ≤ m2 →
      a.assembly_yield n m2 ar ≤ a.assembly_yield n m ar) ∧
    (∀ n m ar ar2 : ℝ, 0 ≤ a.alignment_yield → 0 ≤ a.bonding_yield →
      0 ≤ a.dielectric_bond_defect_density → ar ≤ ar2 →
      a.assembly_yield n m ar2 ≤ a.assembly_yield n m ar) := by
  refine ⟨assembly_yield_eq a, ?_, ?_, ?_, ?_, ?_⟩
  · rw [assembly_yield_eq]
    norm_num [Real.rpow_zero]
  · intro n m ar hal hal1 hb hb1 hd hn hm har hdar
    rw [assembly_yield_eq]
    have h1 : 0 ≤ a.alignment_yield ^ n := Real.rpow_nonneg hal.le n
    have h2 : 0 ≤ a.bonding_yield ^ m := Real.rpow_nonneg hb.le m
    have h3 : (0:ℝ) ≤ 1 - a.dielectric_bond_defect_density * ar := by linarith
    have h4 : a.alignment_yield ^ n ≤ 1 := Real.rpow_le_one hal.le hal1 hn
    have h5 : a.bonding_yield ^ m ≤ 1 := Real.rpow_le_one hb.le hb1 hm
    have h6 : 1 - a.dielectric_bond_defect_density * ar ≤ 1 := by
      nlinarith [mul_nonneg hd har]
    constructor
    · positivity
    · calc a.alignment_yield ^ n * a.bonding_yield ^ m *
            (1 - a.dielectric_bond_defect_density * ar)
          ≤ 1 * 1 * 1 := by
            apply mul_le_mul (mul_le_mul h4 h5 h2 (by norm_num)) h6 h3 (by norm_num)
      _ = 1 := by norm_num
  · intro n n2 m ar hal hal1 hb hdar hn
    rw [assembly_yield_eq, assembly_yield_eq]
    have h1 : a.alignment_yield ^ n2 ≤ a.alignment_yield ^ n :=
      Real.rpow_le_rpow_of_exponent_ge hal hal1 hn
    have h2 : 0 ≤ a.bonding_yield ^ m := Real.rpow_nonneg hb m
    have h3 : (0:ℝ) ≤ 1 - a.dielectric_bond_defect_density * ar := by linarith
    exact mul_le_mul_of_nonneg_right (mul_le_mul_of_nonneg_right h1 h2) h3
  · intro n m m2 ar hal hb hb1 hdar hm
    rw [assembly_yield_eq, assembly_yield_eq]
    have h1 : a.bonding_yield ^ m2 ≤ a.bonding_yield ^ m :=
      Real.rpow_le_rpow_of_exponent_ge hb hb1 hm
    have h2 : 0 ≤ a.alignment_yield ^ n := Real.rpow_nonneg hal n
    have h3 : (0:ℝ) ≤ 1 - a.dielectric_bond_defect_density * ar := by linarith
    exact mul_le_mul_of_nonneg_right (mul_le_mul_of_nonneg_left h1 h2) h3
  · intro n m ar ar2 hal hb hd har
    rw [assembly_yield_eq, assembly_yield_eq]
    have h1 : 1 - a.dielectric_bond_defect_density * ar2 ≤
        1 - a.dielectric_bond_defect_density * ar := by
      nlinarith [mul_le_mul_of_nonneg_left har hd]
    have h2 : 0 ≤ a.alignment_yield ^ n * a.bonding_yield ^ m :=
      mul_nonneg (Real.rpow_nonneg hal n) (Real.rpow_nonneg hb m)
    exact mul_le_mul_of_nonneg_left h1 h2

/-- Counterexample to C4 as stated: with unit alignment and bonding yields
and a unit dielectric bond defect density, `assembly_yield 0 0 2 = -1`,
which is not in [0,1] although all three arguments are nonnegative. -/
theorem C4_counterexample :
    assembly4.assembly_yield 0 0 2 = -1 ∧
      ¬ (0 ≤ assembly4.assembly_yield 0 0 2) := by
  have h : assembly4.assembly_yield 0 0 2 = -1 := by
    rw [assembly_yield_eq]
    norm_num [assembly4, baseAssembly, Real.rpow_zero]
  exact ⟨h, by rw [h]; norm_num⟩

/-- Witness for C4 at concrete inputs: the bounds part of the amended
theorem applied to `assembly4w` (yields 1/2, zero defect density) at
(1, 1, 1). -/
theorem C4_assembly_yield_props_witness :
    0 ≤ assembly4w.assembly_yield 1 1 1 ∧ assembly4w.assembly_yield 1 1 1 ≤ 1 :=
  (C4_assembly_yield_props assembly4w).2.2.1 1 1 1
    (by norm_num [assembly4w, baseAssembly]) (by norm_num [assembly4w, baseAssembly])
    (by norm_num [assembly4w, baseAssembly]) (by norm_num [assembly4w, baseAssembly])
    (by norm_num [assembly4w, baseAssembly]) (by norm_num) (by norm_num) (by norm_num)
    (by norm_num [assembly4w, baseAssembly])

/-- The children-quality accumulator loop is the product of the children's
qualities. -/
lemma foldl_mul_quality (l : List Chip) (init : ℝ) :
    l.foldl (fun q chip => q * chip.data.quality) init =
      init * (l.map fun chip => chip.data.quality).prod := by
  induction l generalizing init with
  | nil => simp
  | cons x xs ih => simp [ih, mul_assoc]

/-- C1: the computed chip true yield (the value the constructor caches and
`get_chip_true_yield` returns) is `self_quality` times the product of the
children's qualities times `assembly_yield(number of children, total
external signal count of the children, stacked die area)` times the wafer
process yield.  The signal count is `Option`-valued because an empty io
list with a non-empty adjacency model raises in the source. -/
theorem C1_chip_true_yield_formula (c : Chip) :
    c.compute_chip_yield = c.get_chips_signal_count.map (fun scount =>
      c.data.self_quality * (c.chips.map fun chip => chip.data.quality).prod *
        c.data.assembly_process.assembly_yield (c.chips.length : ℝ) scount
          c.get_stacked_die_area *
        c.data.wafer_process.wafer_process_yield) := by
  have hq : c.quality_yield = (c.chips.map fun chip => chip.data.quality).prod := by
    rw [Chip.quality_yield, foldl_mul_quality]
    norm_num
  unfold Chip.compute_chip_yield
  cases h : c.get_chips_signal_count with
  | none => simp [h]
  | some sc =>
    simp [h, hq]
    ring

/-- C6 (amended): layer_cost returns 0 at area 0 WITHOUT examining
litho_percent; on positive area it returns
`base*(1-litho_percent) + base*litho_percent/reticle_utilization` with
`base = area * compute_cost_per_mm2(area, wafer_process)` and the
utilization taken as 1.0 when litho_percent is 0 (a failure of
compute_cost_per_mm2 propagates); negative area is fatal; and negative
litho_percent is fatal exactly when the area is positive. -/
theorem C6_layer_cost_cases (L : Layer) (wp : WaferProcess) :
    (L.layer_cost 0 wp = Except.ok 0) ∧
    (∀ a : ℝ, 0 < a → 0 ≤ L.litho_percent →
      L.layer_cost a wp = (L.compute_cost_per_mm2 a wp).map (fun cpm =>
        a * cpm * (1 - L.litho_percent) + a * cpm * L.litho_percent /
          (if L.litho_percent = 0 then 1.0
           else L.reticle_utilization a wp.reticle_x wp.reticle_y))) ∧
    (∀ a : ℝ, a < 0 → L.layer_cost a wp = Except.error ()) ∧
    (∀ a : ℝ, 0 < a → L.litho_percent < 0 → L.layer_cost a wp = Except.error ()) := by
  refine ⟨?_, ?_, ?_, ?_⟩
  · simp [Layer.layer_cost]
  · intro a ha hl
    simp only [Layer.layer_cost, if_neg (ne_of_gt ha), if_pos ha]
    cases hc : L.compute_cost_per_mm2 a wp with
    | error e => simp [Except.map]
    | ok cpm =>
      by_cases h0 : L.litho_percent = 0
      · simp [Except.map, if_pos h0]
      · have hpos : L.litho_percent > 0 := lt_of_le_of_ne hl (Ne.symm h0)
        simp [Except.map, if_neg h0, if_pos hpos]
  · intro a ha
    have h1 : ¬ (a = 0) := ne_of_lt ha
    have h2 : ¬ (a > 0) := not_lt.mpr ha.le
    simp [Layer.layer_cost, h1, h2]
  · intro a ha hl
    simp only [Layer.layer_cost, if_neg (ne_of_gt ha), if_pos ha]
    cases hc : L.compute_cost_per_mm2 a wp with
    | error e => rfl
    | ok cpm =>
      have h0 : ¬ (L.litho_percent = 0) := ne_of_lt hl
      have h2 : ¬ (L.litho_percent > 0) := not_lt.mpr hl.le
      simp [h0, h2]

/-- Counterexample to C6 as stated: `layer6` has litho_percent = -1, yet
`layer_cost 0` returns 0 normally instead of terminating fatally — the
area == 0 early return fires before the litho_percent check. -/
theorem C6_counterexample :
    layer6.litho_percent < 0 ∧ layer6.layer_cost 0 baseWaferProcess = Except.ok 0 :=
  ⟨by norm_num [layer6, baseLayer], by simp [Layer.layer_cost]⟩

/-- Witness for C6 at a concrete input: negative area is fatal on the base
layer, by the amended theorem. -/
theorem C6_layer_cost_cases_witness :
    baseLayer.layer_cost (-1) baseWaferProcess = Except.error () :=
  (C6_layer_cost_cases baseLayer baseWaferProcess).2.2.1 (-1) (by norm_num)

/-- C2 (amended): for a chip with exactly one child, that child a leaf, and
no entries in the global adjacency model, get_cost() is
`(self_cost + child.cost + assembly_cost(1, stacked_die_area) +
assembly_test_cost) / chip_test_yield`, where the stacked die area is the
child's area expanded by half the die separation and by the assembly edge
exclusion — not the bare child area the claim used — and the assembly test
cost term (zero when the assembly test stage is disabled) is also present. -/
theorem C2_single_child_cost (c child : Chip) (draw : ℝ)
    (h1 : c.chips = [child]) (_h2 : child.chips = [])
    (_h3 : c.data.global_adjacency_matrix = []) :
    c.compute_cost draw =
      (c.data.test_process.compute_assembly_test_cost c draw).map (fun atc =>
        (c.data.self_cost + child.data.cost +
          c.data.assembly_process.assembly_cost 1 c.get_stacked_die_area + atc) /
          c.data.chip_test_yield) := by
  unfold Chip.compute_cost
  rw [h1]
  cases ht : c.data.test_process.compute_assembly_test_cost c draw with
  | none => simp
  | some atc =>
    simp only [Except.map, Option.map_some, List.foldl_cons, List.foldl_nil,
      List.length_cons, List.length_nil, Option.some.injEq]
    norm_num

/-- Counterexample to C2 as stated: for `parent2` (single leaf child of area
1, die separation 2, materials cost 1 per mm2, all machine rates 0, assembly
test disabled, chip test yield 1) the code computes cost 9 — the stacked die
area is (sqrt 1 + 2)^2 = 9 — while the claim's formula with the bare child
area gives 1. -/
theorem C2_counterexample :
    parent2.compute_cost 0 = some 9 ∧
      ((parent2.data.self_cost + child2.data.cost +
          parent2.data.assembly_process.assembly_cost 1 child2.data.area) /
          parent2.data.chip_test_yield) = 1 ∧
      parent2.compute_cost 0 ≠
        some ((parent2.data.self_cost + child2.data.cost +
          parent2.data.assembly_process.assembly_cost 1 child2.data.area) /
          parent2.data.chip_test_yield) := by
  have hsda : parent2.get_stacked_die_area = 9 := by
    unfold Chip.get_stacked_die_area Chip.expandedArea
    simp only [parent2, child2, baseChipData, baseAssembly, Chip.data, Chip.chips,
      List.foldl_cons, List.foldl_nil]
    norm_num [Real.sqrt_one]
  have hac9 : parent2.data.assembly_process.assembly_cost 1 9 = 9 := by
    simp only [parent2, baseChipData, baseAssembly, Chip.data,
      Assembly.assembly_cost, Assembly.get_picknplace_cost_per_second,
      Assembly.get_bonding_cost_per_second, Assembly.compute_picknplace_time,
      Assembly.compute_bonding_time]
    norm_num
  have hac1 : parent2.data.assembly_process.assembly_cost 1 child2.data.area = 1 := by
    simp only [parent2, child2, baseChipData, baseAssembly, Chip.data,
      Assembly.assembly_cost, Assembly.get_picknplace_cost_per_second,
      Assembly.get_bonding_cost_per_second, Assembly.compute_picknplace_time,
      Assembly.compute_bonding_time]
    norm_num
  have hcost : parent2.compute_cost 0 = some 9 := by
    unfold Chip.compute_cost
    rw [show parent2.chips = [child2] from rfl]
    simp only [Test.compute_assembly_test_cost,
      show parent2.data.test_process = baseTest from rfl,
      show baseTest.test_assembly = false from rfl]
    simp only [List.foldl_cons, List.foldl_nil, List.length_cons, List.length_nil,
      hsda, hac9]
    norm_num [parent2, child2, baseChipData, Chip.data]
  refine ⟨hcost, ?_, ?_⟩
  · rw [hac1]
    norm_num [parent2, child2, baseChipData, Chip.data]
  · rw [hcost, hac1]
    norm_num [parent2, child2, baseChipData, Chip.data]

/-- Witness for C2: the amended theorem applied to the concrete pair
`parent2`, `child2`. -/
theorem C2_single_child_cost_witness :
    parent2.compute_cost 0 =
      (parent2.data.test_process.compute_assembly_test_cost parent2 0).map (fun atc =>
        (parent2.data.self_cost + child2.data.cost +
          parent2.data.assembly_process.assembly_cost 1 parent2.get_stacked_die_area +
          atc) / parent2.data.chip_test_yield) :=
  C2_single_child_cost parent2 child2 0 rfl rfl rfl

/-- The get_io_area accumulator fold in closed form: each interconnect type
contributes the ROW sum at the block index times the sum of the tx and rx
pad areas (the source's `adj[t][:][bi]` is row `bi` again, so the rx term
reuses the row sum). -/
lemma ioArea_foldlM_eq (ios : List Io) (bi : ℕ) :
    ∀ (l : List (String × List (List ℝ))) (acc : ℝ),
      ioAreaLoop ios bi l acc =
        (l.mapM (fun e => (findIoForType ios e.1).map (fun io =>
            (e.2.getD bi []).sum * (io.tx_area + io.rx_area)))).map
          (fun xs => acc + xs.sum) := by
  intro l
  induction l with
  | nil =>
    intro acc
    rw [List.mapM_nil]
    simp [ioAreaLoop]
  | cons e rest ih =>
    intro acc
    rw [List.mapM_cons]
    cases hf : findIoForType ios e.1 with
    | none => simp [ioAreaLoop, hf]
    | some io =>
      simp only [ioAreaLoop, hf, ih]
      cases hm : rest.mapM (fun e => (findIoForType ios e.1).map (fun io =>
          (e.2.getD bi []).sum * (io.tx_area + io.rx_area))) with
      | none => simp [hm]
      | some xs =>
        simp [hm, pySlice]
        ring

/-- C5 (amended): for a chip whose name occurs in the block-name list (the
code takes the FIRST matching index), get_io_area sums, over the
interconnect types of the global adjacency model, the full row of the
adjacency matrix at the chip's block index times (tx_area + rx_area) of the
resolved interconnect.  No blocks are excluded (the chip's own subtree is
included, even the diagonal), and the matrix column is never read: the
Python `adj[t][:][bi]` slice-index yields the row again. -/
theorem C5_io_area_row_sums (c : Chip) (bi : ℕ)
    (hbi : c.data.block_names.findIdx? (fun s => s == c.data.name) = some bi) :
    c.get_io_area =
      (c.data.global_adjacency_matrix.mapM (fun e =>
        (findIoForType c.data.io_list e.1).map (fun io =>
          (e.2.getD bi []).sum * (io.tx_area + io.rx_area)))).map List.sum := by
  unfold Chip.get_io_area
  rw [hbi]
  show ioAreaLoop c.data.io_list bi c.data.global_adjacency_matrix 0.0 = _
  rw [ioArea_foldlM_eq]
  cases hm : c.data.global_adjacency_matrix.mapM (fun e =>
      (findIoForType c.data.io_list e.1).map (fun io =>
        (e.2.getD bi []).sum * (io.tx_area + io.rx_area))) with
  | none => simp [hm]
  | some xs =>
    simp [hm]
    norm_num

/-- Counterexample to C5 as stated: on `chip5` (blocks ["A","B"], adjacency
row [0,1] and column [0,5] at index 0, tx_area 2, rx_area 3) the code
returns 1*2 + 1*3 = 5, while the claim's row*tx + column*rx sum over blocks
outside the chip's subtree is 1*2 + 5*3 = 17. -/
theorem C5_counterexample :
    chip5.get_io_area = some 5 ∧ claimIOArea chip5 = 17 ∧
      chip5.get_io_area ≠ some (claimIOArea chip5) := by
  have hBA : ("B" = "A") = False := by simp
  have hidx : chip5.data.block_names.findIdx? (fun s => s == chip5.data.name) =
      some 0 := by
    simp only [chip5, baseChipData, Chip.data]
    rfl
  have h1 : chip5.get_io_area = some 5 := by
    unfold Chip.get_io_area
    rw [hidx]
    simp only [chip5, baseChipData, io5, Chip.data, ioAreaLoop, findIoForType,
      pySlice]
    norm_num [List.find?, List.getD, List.getElem?_cons_zero,
      List.getElem?_cons_succ]
  have h2 : claimIOArea chip5 = 17 := by
    unfold claimIOArea
    rw [hidx]
    simp only [chip5, baseChipData, io5, Chip.data, subtreeNames,
      subtreeNamesOfChildren]
    norm_num [List.find?, List.range_succ, hBA, List.getD,
      List.getElem?_cons_zero, List.getElem?_cons_succ]
  refine ⟨h1, h2, ?_⟩
  rw [h1, h2]
  norm_num

/-- Witness for C5: the amended theorem applied to `chip5` at block index 0. -/
theorem C5_io_area_row_sums_witness :
    chip5.get_io_area =
      (chip5.data.global_adjacency_matrix.mapM (fun e =>
        (findIoForType chip5.data.io_list e.1).map (fun io =>
          (e.2.getD 0 []).sum * (io.tx_area + io.rx_area)))).map List.sum :=
  C5_io_area_row_sums chip5 0 (by
    simp only [chip5, baseChipData, Chip.data]
    rfl)

/-- C8 (amended): on a static record every value-taking field setter that
carries the static-latch guard returns the failure indicator 1 and leaves
the record unchanged; but Chip.set_stack_power, Chip.set_nre_design_cost and
the Assembly cached-rate setters carry no guard — they recompute their field
on the static record and return 0. -/
theorem C8_static_setters
    (w : WaferProcess) (x : Io) (L : Layer) (a : Assembly) (t : Test) (c : Chip)
    (hw : w.static = true) (hx : x.static = true) (hL : L.static = true)
    (ha : a.static = true) (ht : t.static = true) (hc : c.data.static = true)
    (v : ℝ) (s : String) (b : Bool) (ol : Option ℝ) (q : ℤ) (ap : Assembly)
    (tp : Test) (ll : List Layer) :
    (w.set_name s = (w, 1) ∧ w.set_wafer_diameter v = (w, 1) ∧
      w.set_edge_exclusion v = (w, 1) ∧ w.set_wafer_process_yield v = (w, 1) ∧
      w.set_dicing_distance v = (w, 1) ∧ w.set_reticle_x v = (w, 1) ∧
      w.set_reticle_y v = (w, 1) ∧ w.set_wafer_fill_grid s = (w, 1) ∧
      w.set_nre_front_end_cost_per_mm2_memory v = (w, 1) ∧
      w.set_nre_back_end_cost_per_mm2_memory v = (w, 1) ∧
      w.set_nre_front_end_cost_per_mm2_logic v = (w, 1) ∧
      w.set_nre_back_end_cost_per_mm2_logic v = (w, 1) ∧
      w.set_nre_front_end_cost_per_mm2_analog v = (w, 1) ∧
      w.set_nre_back_end_cost_per_mm2_analog v = (w, 1)) ∧
    (x.set_type s = (x, 1) ∧ x.set_rx_area v = (x, 1) ∧ x.set_tx_area v = (x, 1) ∧
      x.set_shoreline v = (x, 1) ∧ x.set_bandwidth v = (x, 1) ∧
      x.set_wire_count v = (x, 1) ∧ x.set_bidirectional s = (x, 1) ∧
      x.set_energy_per_bit v = (x, 1) ∧ x.set_reach v = (x, 1)) ∧
    (L.set_name s = (L, 1) ∧ L.set_active b = (L, 1) ∧
      L.set_cost_per_mm2 v = (L, 1) ∧ L.set_defect_density v = (L, 1) ∧
      L.set_critical_area_ratio v = (L, 1) ∧ L.set_clustering_factor v = (L, 1) ∧
      L.set_litho_percent v = (L, 1) ∧ L.set_mask_cost v = (L, 1) ∧
      L.set_stitching_yield v = (L, 1)) ∧
    (a.set_name s = (a, 1) ∧ a.set_materials_cost_per_mm2 v = (a, 1) ∧
      a.set_picknplace_machine_cost v = (a, 1) ∧
      a.set_picknplace_machine_lifetime v = (a, 1) ∧
      a.set_picknplace_machine_uptime v = (a, 1) ∧
      a.set_picknplace_technician_yearly_cost v = (a, 1) ∧
      a.set_picknplace_time v = (a, 1) ∧ a.set_picknplace_group v = (a, 1) ∧
      a.set_bonding_machine_cost v = (a, 1) ∧
      a.set_bonding_machine_lifetime v = (a, 1) ∧
      a.set_bonding_machine_uptime v = (a, 1) ∧
      a.set_bonding_technician_yearly_cost v = (a, 1) ∧
      a.set_bonding_time v = (a, 1) ∧ a.set_bonding_group v = (a, 1) ∧
      a.set_die_separation v = (a, 1) ∧ a.set_edge_exclusion v = (a, 1) ∧
      a.set_bonding_pitch v = (a, 1) ∧ a.set_max_pad_current_density v = (a, 1) ∧
      a.set_alignment_yield v = (a, 1) ∧ a.set_bonding_yield v = (a, 1) ∧
      a.set_dielectric_bond_defect_density v = (a, 1)) ∧
    (t.set_name s = (t, 1) ∧ t.set_test_self b = (t, 1) ∧
      t.set_test_assembly b = (t, 1) ∧ t.set_self_defect_coverage v = (t, 1) ∧
      t.set_assembly_defect_coverage v = (t, 1) ∧
      t.set_self_test_cost_per_mm2 v = (t, 1) ∧
      t.set_assembly_test_cost_per_mm2 v = (t, 1) ∧
      t.set_self_pattern_count v = (t, 1) ∧ t.set_assembly_pattern_count v = (t, 1) ∧
      t.set_self_test_failure_dist q = (t, 1) ∧
      t.set_assembly_test_failure_dist q = (t, 1)) ∧
    (c.set_name s = (c, 1) ∧ c.set_aspect_ratio v = (c, 1) ∧
      c.set_x_location ol = (c, 1) ∧ c.set_y_location ol = (c, 1) ∧
      c.set_core_area v = (c, 1) ∧ c.set_fraction_memory v = (c, 1) ∧
      c.set_fraction_logic v = (c, 1) ∧ c.set_fraction_analog v = (c, 1) ∧
      c.set_reticle_share v = (c, 1) ∧ c.set_buried b = (c, 1) ∧
      c.set_self_cost v = (c, 1) ∧ c.set_cost v = (c, 1) ∧
      c.set_self_true_yield v = (c, 1) ∧ c.set_chip_true_yield v = (c, 1) ∧
      c.set_self_test_yield v = (c, 1) ∧ c.set_chip_test_yield v = (c, 1) ∧
      c.set_self_quality v = (c, 1) ∧ c.set_quality v = (c, 1) ∧
      c.set_assembly_process ap = (c, 1) ∧ c.set_stackup ll = (c, 1) ∧
      c.set_test_process tp = (c, 1) ∧ c.set_quantity q = (c, 1) ∧
      c.set_power v = (c, 1) ∧ c.set_core_voltage v = (c, 1) ∧
      c.set_io_power v = (c, 1) ∧ c.set_total_power v = (c, 1)) ∧
    ((c.set_stack_power v).2 = 0 ∧ (c.set_nre_design_cost).2 = 0 ∧
      (a.set_picknplace_cost_per_second).2 = 0 ∧
      (a.set_bonding_cost_per_second).2 = 0) := by
  simp [WaferProcess.set_name, WaferProcess.set_wafer_diameter,
    WaferProcess.set_edge_exclusion, WaferProcess.set_wafer_process_yield,
    WaferProcess.set_dicing_distance, WaferProcess.set_reticle_x,
    WaferProcess.set_reticle_y, WaferProcess.set_wafer_fill_grid,
    WaferProcess.set_nre_front_end_cost_per_mm2_memory,
    WaferProcess.set_nre_back_end_cost_per_mm2_memory,
    WaferProcess.set_nre_front_end_cost_per_mm2_logic,
    WaferProcess.set_nre_back_end_cost_per_mm2_logic,
    WaferProcess.set_nre_front_end_cost_per_mm2_analog,
    WaferProcess.set_nre_back_end_cost_per_mm2_analog,
    Io.set_type, Io.set_rx_area, Io.set_tx_area, Io.set_shoreline,
    Io.set_bandwidth, Io.set_wire_count, Io.set_bidirectional,
    Io.set_energy_per_bit, Io.set_reach,
    Layer.set_name, Layer.set_active, Layer.set_cost_per_mm2,
    Layer.set_defect_density, Layer.set_critical_area_ratio,
    Layer.set_clustering_factor, Layer.set_litho_percent, Layer.set_mask_cost,
    Layer.set_stitching_yield,
    Assembly.set_name, Assembly.set_materials_cost_per_mm2,
    Assembly.set_picknplace_machine_cost, Assembly.set_picknplace_machine_lifetime,
    Assembly.set_picknplace_machine_uptime,
    Assembly.set_picknplace_technician_yearly_cost, Assembly.set_picknplace_time,
    Assembly.set_picknplace_group, Assembly.set_bonding_machine_cost,
    Assembly.set_bonding_machine_lifetime, Assembly.set_bonding_machine_uptime,
    Assembly.set_bonding_technician_yearly_cost, Assembly.set_bonding_time,
    Assembly.set_bonding_group, Assembly.set_die_separation,
    Assembly.set_edge_exclusion, Assembly.set_bonding_pitch,
    Assembly.set_max_pad_current_density, Assembly.set_alignment_yield,
    Assembly.set_bonding_yield, Assembly.set_dielectric_bond_defect_density,
    Assembly.set_picknplace_cost_per_second, Assembly.set_bonding_cost_per_second,
    Test.set_name, Test.set_test_self, Test.set_test_assembly,
    Test.set_self_defect_coverage, Test.set_assembly_defect_coverage,
    Test.set_self_test_cost_per_mm2, Test.set_assembly_test_cost_per_mm2,
    Test.set_self_pattern_count, Test.set_assembly_pattern_count,
    Test.set_self_test_failure_dist, Test.set_assembly_test_failure_dist,
    Chip.set_name, Chip.set_aspect_ratio, Chip.set_x_location, Chip.set_y_location,
    Chip.set_core_area, Chip.set_fraction_memory, Chip.set_fraction_logic,
    Chip.set_fraction_analog, Chip.set_reticle_share, Chip.set_buried,
    Chip.set_self_cost, Chip.set_cost, Chip.set_self_true_yield,
    Chip.set_chip_true_yield, Chip.set_self_test_yield, Chip.set_chip_test_yield,
    Chip.set_self_quality, Chip.set_quality, Chip.set_assembly_process,
    Chip.set_stackup, Chip.set_test_process, Chip.set_quantity, Chip.set_power,
    Chip.set_core_voltage, Chip.set_io_power, Chip.set_total_power,
    Chip.set_stack_power, Chip.set_nre_design_cost,
    hw, hx, hL, ha, ht, hc]

/-- Counterexample to C8 as stated: `chip8` is static with cached
stack_power 5, yet its field setter `set_stack_power` returns 0 (not the
failure indicator 1) and overwrites the field with the recomputed value 0. -/
theorem C8_counterexample :
    chip8.data.static = true ∧ (chip8.set_stack_power 5).2 = 0 ∧
      (chip8.set_stack_power 5).1.data.stack_power = 0 ∧
      chip8.data.stack_power = 5 := by
  refine ⟨rfl, rfl, ?_, rfl⟩
  norm_num [Chip.set_stack_power, Chip.compute_stack_power, Chip.data, Chip.chips,
    chip8]

/-- Witness for C8 at concrete static records: the first conjunct applied to
the base records. -/
theorem C8_static_setters_witness :
    baseWaferProcess.set_name "x" = (baseWaferProcess, 1) :=
  (C8_static_setters baseWaferProcess io5 baseLayer baseAssembly baseTest chip8
    rfl rfl rfl rfl rfl rfl 1 "x" true none 1 baseAssembly baseTest []).1.1

end

end ChipletPart
